import Mathlib

/-!
Verification of the SwissMeteo-For-Energy loading pipeline.

This file gives a shallow embedding of `src/modules/config.py` and
`src/modules/loading.py` and proves or refutes the specification claims
about them.  Python ints are modelled by `ℤ`, Python floats by `ℚ`
(Python's `/` on ints is float division, modelled as exact division in
`ℚ`), pandas missing values (`NaN` / `NaT`) and absent dictionary keys by
`Option`, and raised Python exceptions by `Except String`.
-/

/-! ## Python value semantics used by `config.set_global_meteo` -/

/-- Python runtime values relevant to the configuration setters. -/
inductive PyVal where
  | pybool (b : Bool)
  | pyint (n : Int)
  | pystr (s : String)
  | pynone
deriving DecidableEq

/-- Python `==` between the modelled values: `True == 1`, `False == 0`,
numeric cross-type equality, and no equality across numbers and strings. -/
def pyEq : PyVal → PyVal → Bool
  | PyVal.pybool a, PyVal.pybool b => a == b
  | PyVal.pybool a, PyVal.pyint n => (if a then (1 : Int) else 0) == n
  | PyVal.pyint n, PyVal.pybool b => n == (if b then (1 : Int) else 0)
  | PyVal.pyint a, PyVal.pyint b => a == b
  | PyVal.pystr a, PyVal.pystr b => a == b
  | PyVal.pynone, PyVal.pynone => true
  | _, _ => false

/-- Whether a Python value is an actual `bool`. -/
def isPyBool : PyVal → Bool
  | PyVal.pybool _ => true
  | _ => false

/-- The attributes of the `config` class that the setters touch. -/
structure PyConfig where
  freq : PyVal
  start_date : PyVal
  end_date : PyVal
  global_meteo : PyVal
deriving DecidableEq

/-- Embedding of `config.set_global_meteo`: Python
`if global_meteo not in [True, False]: raise ValueError(...)` followed by
the assignment; list membership in Python compares with `==`. -/
def set_global_meteo (c : PyConfig) (v : PyVal) : Except String PyConfig :=
  if pyEq v (PyVal.pybool true) || pyEq v (PyVal.pybool false) then
    Except.ok { c with global_meteo := v }
  else
    Except.error "global_meteo must be True or False"

/-- Whether an `Except` computation finished without raising. -/
def isOkE {e a : Type} : Except e a → Bool
  | Except.ok _ => true
  | Except.error _ => false

deriving instance DecidableEq for Except

/-! ## Station registry and `compute_station_weights` -/

/-- One entry of the `station_to_canton` registry.  Optional fields model
Python dictionary keys that may be absent; population counts are Python
ints. -/
structure Station where
  name : String
  station_id : String
  canton : String
  population : Option ℤ
  district : Option ℤ
  canton_pop : Option ℤ
deriving DecidableEq

/-- The fixed `station_to_canton` registry of `loading.py`. -/
def swissRegistry : List Station := [
  ⟨"Adelboden", "ABO", "BE", some 3340, some 40674, some 1047473⟩,
  ⟨"Bern_Zollikofen", "BER", "BE", some 10825, some 418858, some 1047473⟩,
  ⟨"Interlaken", "INT", "BE", some 5821, some 47811, some 1047473⟩,
  ⟨"Basel_Binningen", "BAS", "BL", some 15616, some 157641, some 292817⟩,
  ⟨"Geneve_Cointrin", "GVE", "GE", none, none, some 509448⟩,
  ⟨"Chur_Ems", "CHU", "GR", some 37875, some 43233, some 201376⟩,
  ⟨"Disentis", "DIS", "GR", some 2033, some 21438, some 201376⟩,
  ⟨"Davos", "DAV", "GR", some 10648, some 26060, some 201376⟩,
  ⟨"Samedan", "SAM", "GR", some 3035, some 18236, some 201376⟩,
  ⟨"Luzern", "LUZ", "LU", none, none, some 420326⟩,
  ⟨"Neuchatel", "NEU", "NE", some 44485, some 176166, some 176166⟩,
  ⟨"Buchs_Suhr", "BUS", "AG", some 8270, some 81275, some 703086⟩,
  ⟨"Engelberg", "ENG", "OW", none, none, some 38435⟩,
  ⟨"St_Gallen", "STG", "SG", some 76328, some 123274, some 519245⟩,
  ⟨"Schaffhausen", "SHA", "SH", some 37248, some 55740, some 83995⟩,
  ⟨"Lugano", "LUG", "TI", some 62123, some 151242, some 352181⟩,
  ⟨"Piotta", "PIO", "TI", some 974, some 8718, some 352181⟩,
  ⟨"Altdorf", "ALT", "UR", none, none, some 37047⟩,
  ⟨"Pully", "PUY", "VD", some 18128, some 64270, some 822968⟩,
  ⟨"Sion", "SIO", "VS", some 35259, some 49023, some 353209⟩,
  ⟨"Zermatt", "ZER", "VS", some 5769, some 28706, some 353209⟩,
  ⟨"Zuerich_Kloten", "KLO", "ZH", none, none, some 1564662⟩]

/-- The distinct cantons of a registry, one entry per canton discovered by
the first loop of `compute_station_weights` (sums over this list do not
depend on its order). -/
def cantonList (R : List Station) : List String := (R.map (·.canton)).dedup

/-- The `canton_pop` the `cantons` dictionary stores for a canton: the one
of the first station of that canton. -/
def cantonPopOf (R : List Station) (c : String) : Option ℤ :=
  (R.find? (fun s => s.canton == c)).bind (·.canton_pop)

/-- `tt_ch_pop`: each canton's `canton_pop` is added once, at the first
station of the canton. -/
def ttChPop (R : List Station) : ℤ :=
  ((cantonList R).map (fun c => (cantonPopOf R c).getD 0)).sum

/-- The normalized canton weight `canton_pop / tt_ch_pop` (Python float
division of two ints). -/
def cantonWeight (R : List Station) (c : String) : ℚ :=
  ((cantonPopOf R c).getD 0 : ℚ) / (ttChPop R : ℚ)

/-- `canton_tt_pop` for a canton: sum of the populations of the stations of
that canton that carry a `population` key. -/
def cantonTTPop (R : List Station) (c : String) : ℤ :=
  ((R.filter (fun s => s.canton == c)).filterMap (·.population)).sum

/-- The body of the final loop of `compute_station_weights` for one
station: local weight `1` when the canton reports no population at all,
otherwise `population / canton_tt_pop` (a missing `population` key raises
`KeyError` there), multiplied by the canton weight. -/
def stationEntry (R : List Station) (s : Station) : Except String (Station × ℚ) :=
  let ct := cantonTTPop R s.canton
  if ct = 0 then
    Except.ok (s, 1 * cantonWeight R s.canton)
  else
    match s.population with
    | none => Except.error "KeyError: population"
    | some p => Except.ok (s, (p : ℚ) / (ct : ℚ) * cantonWeight R s.canton)

/-- Sequencing of a Python `for` loop that may raise: the first raised
exception propagates, otherwise the per-element results are collected. -/
def mapExcept {a b : Type} (g : a → Except String b) : List a → Except String (List b)
  | [] => Except.ok []
  | x :: l =>
    match g x with
    | Except.error e => Except.error e
    | Except.ok y =>
      match mapExcept g l with
      | Except.error e => Except.error e
      | Except.ok ys => Except.ok (y :: ys)

/-- Embedding of `compute_station_weights`, parameterized by the registry
it operates on.  The first loop raises `KeyError` if the first station of
some canton lacks `canton_pop`; the normalization loop raises
`ZeroDivisionError` when the national total is zero while some canton
exists; the final loop computes each station's weight. -/
def computeStationWeights (R : List Station) : Except String (List (Station × ℚ)) :=
  if ((cantonList R).all (fun c => (cantonPopOf R c).isSome)) = false then
    Except.error "KeyError: canton_pop"
  else if R.isEmpty = false ∧ ttChPop R = 0 then
    Except.error "ZeroDivisionError"
  else
    mapExcept (stationEntry R) R

/-- The weight the final loop assigns to a station whose computation does
not raise. -/
def stationWeight (R : List Station) (s : Station) : ℚ :=
  if cantonTTPop R s.canton = 0 then 1 * cantonWeight R s.canton
  else ((s.population.getD 0 : ℤ) : ℚ) / (cantonTTPop R s.canton : ℚ) * cantonWeight R s.canton

/-- The sum of the weights a registry's computation produces, when it
produces any. -/
def weightSum (R : List Station) : Option ℚ :=
  match computeStationWeights R with
  | Except.ok l => some ((l.map (·.2)).sum)
  | Except.error _ => none

/-- A no-population station of canton `XX` with parent population 100. -/
def stUA : Station := ⟨"U1", "U1", "XX", none, none, some 100⟩

/-- Second no-population station of the same canton as `stUA`. -/
def stUB : Station := ⟨"U2", "U2", "XX", none, none, some 100⟩

/-- Registry with one region and two stations, neither reporting a local
population; valid in the sense of the claims (non-empty, parent-region
population present and non-zero). -/
def regUU : List Station := [stUA, stUB]

/-- A station whose canton carries a zero parent-population. -/
def stZZ : Station := ⟨"Z", "Z", "AA", none, none, some 0⟩

/-- A station of positive parent-population used next to `stZZ`. -/
def stPP : Station := ⟨"P", "P", "BB", none, none, some 50⟩

/-- A station missing the `canton_pop` key entirely. -/
def stMM : Station := ⟨"M", "M", "CC", none, none, none⟩

/-- A valid mixed registry: one two-station canton with populations and
one singleton canton without. -/
def regMixed : List Station :=
  [⟨"A", "A", "BE", some 10, none, some 100⟩,
   ⟨"B", "B", "BE", some 30, none, some 100⟩,
   ⟨"C", "C", "ZH", none, none, some 300⟩]

/-- A registry whose canton has a nonzero reported total but also one
station without a `population` key: the final loop's population lookup
raises for that station. -/
def regHalf : List Station :=
  [⟨"A", "A", "BE", some 10, none, some 100⟩,
   ⟨"B", "B", "BE", none, none, some 100⟩]

/-! ## A model of the pandas frames used by the aggregation step -/

/-- A numeric time-indexed DataFrame: a row index of timestamps and named
columns, each a partial map from timestamps to values (`none` = `NaN`). -/
structure DF where
  index : List Int
  cols : List (String × (Int → Option ℚ))

/-- The empty `pd.DataFrame()`. -/
def emptyDF : DF := ⟨[], []⟩

/-- Elementwise multiplication `df * weight` of every column by a scalar;
missing values stay missing. -/
def scalarMul (w : ℚ) (df : DF) : DF :=
  ⟨df.index, df.cols.map (fun c => (c.1, fun t => (c.2 t).map (fun x => w * x)))⟩

/-- The columns of a frame as seen after alignment to a common row index:
outside the frame's own index a column has no value. -/
def maskCols (d : DF) : List (String × (Int → Option ℚ)) :=
  d.cols.map (fun c => (c.1, fun t => if t ∈ d.index then c.2 t else none))

/-- Lexicographic comparison of character sequences, the order pandas uses
for string group keys. -/
def charLe : List Char → List Char → Bool
  | [], _ => true
  | _ :: _, [] => false
  | a :: as, b :: bs => if a = b then charLe as bs else decide (a.toNat < b.toNat)

/-- Lexicographic string comparison. -/
def strLe (a b : String) : Bool := charLe a.toList b.toList

/-- The sorted deduplicated union of row indexes that pandas produces when
outer-joining distinct indexes. -/
def sortedUnion (ls : List (List Int)) : List Int :=
  List.insertionSort (fun a b => a ≤ b) ls.join.dedup

/-- Embedding of `pd.concat(objs, axis=1)`: raises on an empty collection;
keeps the common index when all indexes coincide; otherwise aligns on the
sorted union of the indexes, raising if reindexing meets duplicate labels. -/
def pdConcatAxis1 (dfs : List DF) : Except String DF :=
  match dfs with
  | [] => Except.error "No objects to concatenate"
  | d :: ds =>
    let cols := ((d :: ds).map maskCols).join
    if ds.all (fun x => x.index == d.index) then Except.ok ⟨d.index, cols⟩
    else if ∀ x ∈ d :: ds, x.index.Nodup then
      Except.ok ⟨sortedUnion ((d :: ds).map (·.index)), cols⟩
    else Except.error "InvalidIndexError"

/-- Embedding of `.groupby(level=0, axis=1).sum()`: one column per distinct
column name (group keys sorted), whose value is the skip-NaN sum of the
grouped columns — `0`, not `NaN`, when every grouped value is missing
(pandas `sum` with its default `min_count=0`). -/
def groupbyLevel0Sum (df : DF) : DF :=
  ⟨df.index,
   (List.insertionSort (fun a b => strLe a b = true) (df.cols.map (·.1)).dedup).map
     (fun n => (n, fun t => some ((df.cols.filterMap
       (fun c => if c.1 == n then c.2 t else none)).sum)))⟩

/-- Suffixing of every column of a station frame with the station id, as in
`concat_stations_horizontal`. -/
def suffixDF (sid : String) (df : DF) : DF :=
  ⟨df.index, df.cols.map (fun c => (c.1 ++ "_" ++ sid, c.2))⟩

/-- The frames `concat_stations_horizontal` actually concatenates: excluded
keys and empty frames are skipped, the rest get suffixed column names. -/
def csFrames (meteo : List (String × DF)) (ex : List String) : List DF :=
  meteo.filterMap (fun p =>
    if ex.contains p.1 || p.2.index.isEmpty || p.2.cols.isEmpty then none
    else some (suffixDF p.1 p.2))

/-- Embedding of `concat_stations_horizontal`. -/
def concatStationsHorizontal (meteo : List (String × DF)) (excludeKeys : Option (List String)) :
    Except String DF :=
  let dfs := csFrames meteo (excludeKeys.getD [])
  if dfs.isEmpty then Except.ok emptyDF else pdConcatAxis1 dfs

/-- Embedding of `data.dropna(axis=1, how="all")`: drop the columns with no
value anywhere on the row index. -/
def dropAllNaNCols (df : DF) : DF :=
  ⟨df.index, df.cols.filter (fun c => df.index.any (fun t => (c.2 t).isSome))⟩

/-- The configuration fields `load_meteo_file` reads. -/
structure LoadConfig where
  freq : String
  start_date : String
  end_date : String
  global_meteo : Bool

/-- Embedding of `load_meteo_file`.  The network collaborator is the
`download` parameter, standing for `download_meteo_file` applied to a
station id and the configured dates and frequency.  The per-station frames
are collected; when the global flag is set each one is weighted; the
`meteo["global"]` assignment concatenates the weighted frames and sums them
by column name, and this concatenation is performed unconditionally; the
stations and the global frame are then merged horizontally and all-NaN
columns dropped.  The CSV side artifact is external output and not
modelled. -/
def loadMeteoFile (cfg : LoadConfig) (download : String → String → String → String → DF) :
    Except String DF :=
  match computeStationWeights swissRegistry with
  | Except.error e => Except.error e
  | Except.ok sw =>
    let meteo := sw.map (fun p =>
      (p.1.station_id, download p.1.station_id cfg.start_date cfg.end_date cfg.freq))
    let meteoGlobal := if cfg.global_meteo then
        sw.map (fun p => scalarMul p.2 (download p.1.station_id cfg.start_date cfg.end_date cfg.freq))
      else []
    match pdConcatAxis1 meteoGlobal with
    | Except.error e => Except.error e
    | Except.ok gc =>
      match concatStationsHorizontal (meteo ++ [("global", groupbyLevel0Sum gc)]) none with
      | Except.error e => Except.error e
      | Except.ok data => Except.ok (dropAllNaNCols data)

/-- The weighted global frame built from weighted station frames, as the
`if config.global_meteo` branch plus the `meteo["global"]` line build it. -/
def weightedGlobal (pairs : List (ℚ × DF)) : Except String DF :=
  match pdConcatAxis1 (pairs.map (fun p => scalarMul p.1 p.2)) with
  | Except.error e => Except.error e
  | Except.ok df => Except.ok (groupbyLevel0Sum df)

/-- Value of column `v` at row `t` of a frame (first column of that name). -/
def lookupCol (df : DF) (v : String) (t : Int) : Option ℚ :=
  match df.cols.find? (fun c => c.1 == v) with
  | some c => c.2 t
  | none => none

/-- Value of the global weighted series at a variable and timestamp. -/
def globalLookup (pairs : List (ℚ × DF)) (v : String) (t : Int) : Option ℚ :=
  match weightedGlobal pairs with
  | Except.ok g => lookupCol g v t
  | Except.error _ => none

/-- The specification's partial weighted sum: over exactly the stations
that report a value for variable `v` at timestamp `t`, add weight times
value; stations not reporting contribute nothing. -/
def reportSum (pairs : List (ℚ × DF)) (v : String) (t : Int) : ℚ :=
  (pairs.map (fun p =>
    if t ∈ p.2.index then
      ((p.2.cols.filterMap (fun c => if c.1 == v then c.2 t else none)).map
        (fun x => p.1 * x)).sum
    else 0)).sum

/-- Station frame A of the spec's aggregation example: variable
`humidity` at timestamp 1 only. -/
def dfHumA : DF := ⟨[1], [("humidity", fun t => if t = 1 then some 2 else none)]⟩

/-- Station frame B of the spec's aggregation example: variable `temp` at
timestamp 2 only. -/
def dfTempB : DF := ⟨[2], [("temp", fun t => if t = 2 then some 3 else none)]⟩

/-- The two weighted stations of the aggregation example. -/
def pairsEx : List (ℚ × DF) := [(6/10, dfHumA), (4/10, dfTempB)]

/-- A station frame whose index is not sorted, as produced by concatenating
files that arrive out of chronological order. -/
def dfUnsorted : DF := ⟨[2, 1], [("air_temperature", fun t => if t = 2 then some 7 else some 5)]⟩

/-- A second station frame with the single timestamp 3, for exercising the
outer-join alignment next to `dfUnsorted`. -/
def dfSingle3 : DF := ⟨[3], [("air_temperature", fun _ => some 1)]⟩

/-! ## String helpers used by the file selection of `download_meteo_file` -/

/-- Membership of a character sequence inside another, modelling Python's
substring operator `in`. -/
def isInfixCh (n : List Char) : List Char → Bool
  | [] => n.isEmpty
  | a :: l => n.isPrefixOf (a :: l) || isInfixCh n l

/-- Python `needle in hay` on strings. -/
def substrIn (needle hay : String) : Bool := isInfixCh needle.toList hay.toList

/-- Python `s.endswith(suffix)`. -/
def endsWithCh (s suffixStr : String) : Bool := suffixStr.toList.isSuffixOf s.toList

/-- Python `s.split(sep)` for a one-character separator. -/
def splitOnChar (c : Char) : List Char → List (List Char)
  | [] => [[]]
  | a :: rest =>
    match splitOnChar c rest with
    | [] => if a = c then [[], []] else [[a]]
    | h :: t => if a = c then [] :: h :: t else (a :: h) :: t

/-- Python `s.replace(".csv", "")`: every occurrence of `.csv` is removed,
scanning left to right. -/
def stripCsvAll : List Char → List Char
  | [] => []
  | '.' :: 'c' :: 's' :: 'v' :: rest => stripCsvAll rest
  | a :: l => a :: stripCsvAll l

/-- Python `int(s)` on a plain decimal digit string. -/
def pyToNat (l : List Char) : Option Nat :=
  if !l.isEmpty && l.all Char.isDigit then
    some (l.foldl (fun acc c => acc * 10 + (c.toNat - '0'.toNat)) 0)
  else none

/-- The `relevant_files` filter of `download_meteo_file`: asset keys that
contain `_{freq}_` and end with `.csv`. -/
def relevantFiles (freq : String) (assets : List (String × String)) : List (String × String) :=
  assets.filter (fun kv => substrIn ("_" ++ freq ++ "_") kv.1 && endsWithCh kv.1 ".csv")

/-- The `file_in_range` predicate of `download_meteo_file`: only keys
containing `historical_` qualify; their final underscore token (with
`.csv` removed) is unpacked into exactly two dash-separated tokens (any
other shape raises `ValueError`), and
`int(start) <= int(end_date[:4]) and int(end) >= int(start_date[:4])` is
evaluated with Python's short-circuiting `and`: `int(start)` is parsed
first (raising on a non-integer), and `int(end)` is parsed only when the
left comparison came out true. -/
def fileInRange (start_date end_date : String) (k : String) : Except String Bool :=
  if substrIn "historical_" k then
    let period := stripCsvAll ((splitOnChar '_' k.toList).getLastD [])
    match splitOnChar '-' period with
    | [a, b] =>
      match pyToNat a, pyToNat (end_date.toList.take 4) with
      | some s, some ey =>
        if s ≤ ey then
          match pyToNat b, pyToNat (start_date.toList.take 4) with
          | some e, some sy => Except.ok (decide (sy ≤ e))
          | _, _ => Except.error "ValueError: invalid literal for int"
        else Except.ok false
      | _, _ => Except.error "ValueError: invalid literal for int"
    | _ => Except.error "ValueError: unpack"
  else Except.ok false

/-- The dictionary comprehension building `selected_files`, in catalog
order; an exception from `file_in_range` propagates. -/
def selectFilesAux (sd ed : String) : List (String × String) → Except String (List (String × String))
  | [] => Except.ok []
  | kv :: rest =>
    match fileInRange sd ed kv.1 with
    | Except.error e => Except.error e
    | Except.ok b =>
      match selectFilesAux sd ed rest with
      | Except.error e => Except.error e
      | Except.ok l => Except.ok (if b then kv :: l else l)

/-- The file selection of `download_meteo_file`: frequency filter then
temporal filter. -/
def selectedFiles (freq sd ed : String) (assets : List (String × String)) :
    Except String (List (String × String)) :=
  selectFilesAux sd ed (relevantFiles freq assets)

/-- The Boolean outcome of `file_in_range` when it does not raise. -/
def keepB (sd ed k : String) : Bool :=
  match fileInRange sd ed k with
  | Except.ok b => b
  | Except.error _ => false

/-- The year range a filename declares according to the specification's
words: final underscore token, `.csv` removed, split at the dash into two
ints.  Used to compare the claim with the implemented selection. -/
def specYearRange (k : String) : Option (Nat × Nat) :=
  match splitOnChar '-' (stripCsvAll ((splitOnChar '_' k.toList).getLastD [])) with
  | [a, b] =>
    match pyToNat a, pyToNat b with
    | some x, some y => some (x, y)
    | _, _ => none
  | _ => none

/-- Catalog entry for an hourly historical file covering 2010-2019. -/
def aH2010 : String × String := ("ogd-smn_abo_h_historical_2010-2019.csv", "u1")

/-- Catalog entry for an hourly historical file covering 2020-2025. -/
def aH2020 : String × String := ("ogd-smn_abo_h_historical_2020-2025.csv", "u2")

/-- Catalog entry for the hourly `recent` file, which has no year range. -/
def aRecent : String × String := ("ogd-smn_abo_h_recent.csv", "u3")

/-- Catalog entry declaring an in-range year range but without the
`historical_` marker. -/
def aPlain : String × String := ("data_h_2020-2025.csv", "u4")

/-- Catalog entry with the `historical_` marker but no parseable year
range in its final token. -/
def aBad : String × String := ("x_h_historical_nodate.csv", "u5")

/-- Catalog entry whose range start parses but exceeds the query end year,
and whose range end is not an integer: the comparison short-circuits, so
the entry is excluded without the end token ever being parsed. -/
def aShort : String × String := ("x_h_historical_9999-latest.csv", "u6")

/-- Catalog entry whose range start parses and is in range but whose range
end is not an integer: parsing the end token raises. -/
def aLate : String × String := ("x_h_historical_2020-latest.csv", "u7")

/-! ## The per-station fetch and concatenation of `concat_meteo_items` -/

/-- A raw semicolon-separated file as `pd.read_csv` returns it: named
columns and rows of optional cell strings (`none` = missing). -/
structure RawCSV where
  header : List String
  rows : List (List (Option String))
deriving DecidableEq

/-- The station/variable result frame of `concat_meteo_items` after
`set_index("reference_timestamp")`: parsed timestamp index, remaining
column names, remaining cell rows. -/
structure MeteoFrame where
  tsIndex : List Int
  header : List String
  rows : List (List (Option String))
deriving DecidableEq

/-- The `variables` renaming dictionary of `loading.py`. -/
def variablesMap : List (String × String) :=
  [("prestah0", "atmospheric_pressure"),
   ("tre200h0", "air_temperature"),
   ("rre150h0", "rainfall"),
   ("ure200h0", "humidity"),
   ("dkl010h0", "wind_direction"),
   ("gre000h0", "global_radiation"),
   ("oli000h0", "irradiation"),
   ("fkl010h0", "wind_speed")]

/-- Position of a column name in a header (first occurrence). -/
def idxOf (c : String) : List String → Nat
  | [] => 0
  | a :: l => if a == c then 0 else idxOf c l + 1

/-- `df.rename(columns=variables)`: names that are keys of the mapping are
replaced, others kept. -/
def renameVar (vars : List (String × String)) (c : String) : String :=
  match vars.find? (fun p => p.1 == c) with
  | some p => p.2
  | none => c

/-- The cell of a row under a given column name, `none` when the header
lacks the column. -/
def cellAt (hdr : List String) (r : List (Option String)) (c : String) : Option String :=
  if hdr.contains c then r.getD (idxOf c hdr) none else none

/-- Per-file processing inside the `try` of `concat_meteo_items`: keep
`reference_timestamp` plus the known variable columns and rename them.
Selecting `reference_timestamp` from a file that lacks it raises
`KeyError`, which the surrounding `except` turns into skipping the file
(`none`). -/
def processFile (vars : List (String × String)) (raw : RawCSV) : Option RawCSV :=
  if vars.isEmpty then some raw
  else if raw.header.contains "reference_timestamp" then
    let keep := "reference_timestamp" :: (vars.map (fun p => p.1)).filter
      (fun v => raw.header.contains v)
    some ⟨keep.map (renameVar vars), raw.rows.map (fun r => keep.map (cellAt raw.header r))⟩
  else none

/-- First-seen deduplication, accumulating the names already seen. -/
def dedupFirstAux (seen : List String) : List String → List String
  | [] => []
  | a :: l => if seen.contains a then dedupFirstAux seen l else a :: dedupFirstAux (a :: seen) l

/-- The column union of `pd.concat(..., ignore_index=True)`: first-seen
order over the concatenated headers. -/
def combinedHeader (hs : List (List String)) : List String := dedupFirstAux [] hs.join

/-- Reindexing of one row to the combined header; columns the source file
lacks become missing. -/
def alignRow (srcHdr tgtHdr : List String) (r : List (Option String)) : List (Option String) :=
  tgtHdr.map (fun c => cellAt srcHdr r c)

/-- Lexicographic timestamp encoding of a calendar date-time. -/
def encodeTS (y mo d h mi s : Nat) : Nat :=
  ((((y * 13 + mo) * 32 + d) * 24 + h) * 60 + mi) * 60 + s

/-- `pd.to_datetime(col, format="%Y-%m-%dT%H:%M:%S")` on one cell. -/
def parseISO (s : String) : Option Nat :=
  match splitOnChar 'T' s.toList with
  | [d, t] =>
    match splitOnChar '-' d, splitOnChar ':' t with
    | [ys, ms, ds], [hs, mis, ss] =>
      match pyToNat ys, pyToNat ms, pyToNat ds, pyToNat hs, pyToNat mis, pyToNat ss with
      | some y, some mo, some da, some h, some mi, some se =>
        if 1 ≤ mo ∧ mo ≤ 12 ∧ 1 ≤ da ∧ da ≤ 31 ∧ h < 24 ∧ mi < 60 ∧ se < 60 then
          some (encodeTS y mo da h mi se)
        else none
      | _, _, _, _, _, _ => none
    | _, _ => none
  | _ => none

/-- `pd.to_datetime(col, format="%d.%m.%Y %H:%M")` on one cell. -/
def parseDayFirst (s : String) : Option Nat :=
  match splitOnChar ' ' s.toList with
  | [d, t] =>
    match splitOnChar '.' d, splitOnChar ':' t with
    | [ds, ms, ys], [hs, mis] =>
      match pyToNat ys, pyToNat ms, pyToNat ds, pyToNat hs, pyToNat mis with
      | some y, some mo, some da, some h, some mi =>
        if 1 ≤ mo ∧ mo ≤ 12 ∧ 1 ≤ da ∧ da ≤ 31 ∧ h < 24 ∧ mi < 60 then
          some (encodeTS y mo da h mi 0)
        else none
      | _, _, _, _, _ => none
    | _, _ => none
  | _ => none

/-- Whole-column `pd.to_datetime` with a fixed format and default
`errors="raise"`: missing cells pass through as `NaT`, one unparseable
cell fails the whole column. -/
def parseAll (p : String → Option Nat) : List (Option String) → Option (List (Option Nat))
  | [] => some []
  | c :: l =>
    match (match c with | none => some none | some s => (p s).map some) with
    | none => none
    | some v => (parseAll p l).map (fun vs => v :: vs)

/-- The timestamp conversion of `concat_meteo_items`: the ISO format is
tried on the whole column first; if any row fails, the whole column is
re-parsed with the day-first format; if that also fails the exception
propagates (it is outside the per-file `try`). -/
def parseColumnTS (cells : List (Option String)) : Except String (List (Option Nat)) :=
  match parseAll parseISO cells with
  | some l => Except.ok l
  | none =>
    match parseAll parseDayFirst cells with
    | some l => Except.ok l
    | none => Except.error "ValueError: time data does not match format"

/-- The part of `concat_meteo_items` after its download loop, applied to
the surviving per-file tables: with none, the empty frame is returned;
otherwise the tables are concatenated row-wise in file order, the
timestamp column is parsed (ISO first on the whole column, then
day-first), the `errors="coerce"` re-parse leaves the parsed values, rows
with missing timestamps are dropped and the timestamp becomes the index.
No sorting and no duplicate removal happens (that line is commented out in
the source). -/
def concatBody (allData : List RawCSV) : Except String MeteoFrame :=
  if allData.isEmpty then Except.ok ⟨[], [], []⟩
  else
    let hdr := combinedHeader (allData.map (·.header))
    let rows := (allData.map (fun d => d.rows.map (alignRow d.header hdr))).join
    if hdr.contains "reference_timestamp" then
      let ti := idxOf "reference_timestamp" hdr
      match parseColumnTS (rows.map (fun r => r.getD ti none)) with
      | Except.error e => Except.error e
      | Except.ok ts =>
        let keep := (rows.zip ts).filter (fun p => p.2.isSome)
        Except.ok ⟨keep.map (fun p => (Int.ofNat (p.2.getD 0))),
          hdr.eraseIdx ti, keep.map (fun p => p.1.eraseIdx ti)⟩
    else Except.ok ⟨[], hdr, rows⟩

/-- Embedding of `concat_meteo_items`.  Each file reference carries its
fetch outcome (the HTTP collaborator is external): a failed fetch, parse
or column selection is caught and the file skipped; the body then works on
exactly the files that succeeded, in file order. -/
def concatMeteoItems (files : List (String × Except Unit RawCSV))
    (vars : List (String × String)) : Except String MeteoFrame :=
  concatBody (files.filterMap (fun f =>
    match f.2 with
    | Except.error _ => none
    | Except.ok raw => processFile vars raw))

/-- A raw hourly file with one day-first timestamped row. -/
def rawDay1 : RawCSV :=
  ⟨["reference_timestamp", "tre200h0"], [[some "01.03.2020 14:00", some "5.2"]]⟩

/-- A second raw file with a later day-first timestamped row. -/
def rawDay2 : RawCSV :=
  ⟨["reference_timestamp", "tre200h0"], [[some "01.03.2020 15:00", some "6.0"]]⟩

/-- A raw file with one ISO timestamped row at 14:00. -/
def rawISO1 : RawCSV :=
  ⟨["reference_timestamp", "tre200h0"], [[some "2020-03-01T14:00:00", some "5.2"]]⟩

/-- A raw file with one ISO timestamped row at 15:00. -/
def rawISO2 : RawCSV :=
  ⟨["reference_timestamp", "tre200h0"], [[some "2020-03-01T15:00:00", some "6.0"]]⟩

/-- A raw file whose first row has a missing timestamp cell. -/
def rawMissTS : RawCSV :=
  ⟨["reference_timestamp", "tre200h0"],
   [[none, some "1.0"], [some "2020-03-01T15:00:00", some "2.0"]]⟩

/-! ## Helper lemmas about the weight computation -/

theorem mapExcept_congr_ok {a b : Type} (g : a → Except String b) (h : a → b) :
    ∀ (l : List a), (∀ x ∈ l, g x = Except.ok (h x)) → mapExcept g l = Except.ok (l.map h)
  | [], _ => rfl
  | x :: l, H => by
    have hx := H x (List.mem_cons_self x l)
    have hl := mapExcept_congr_ok g h l (fun y hy => H y (List.mem_cons_of_mem x hy))
    simp [mapExcept, hx, hl]

theorem mapExcept_mem_ok {a b : Type} (g : a → Except String b) :
    ∀ (l : List a) (ys : List b), mapExcept g l = Except.ok ys →
      ∀ y ∈ ys, ∃ x, x ∈ l ∧ g x = Except.ok y := by
  intro l
  induction l with
  | nil =>
    intro ys h y hy
    simp only [mapExcept] at h
    cases h
    simp at hy
  | cons x l ih =>
    intro ys h y hy
    simp only [mapExcept] at h
    cases hgx : g x with
    | error e => rw [hgx] at h; cases h
    | ok b =>
      rw [hgx] at h
      cases hml : mapExcept g l with
      | error e => rw [hml] at h; cases h
      | ok bs =>
        rw [hml] at h
        cases h
        rcases List.mem_cons.mp hy with h1 | h2
        · exact ⟨x, List.mem_cons_self x l, by rw [hgx, h1]⟩
        · rcases ih bs hml y h2 with ⟨z, hz, hgz⟩
          exact ⟨z, List.mem_cons_of_mem x hz, hgz⟩

theorem stationEntry_eq_ok (R : List Station) (s : Station)
    (h : s.population.isSome = true ∨ cantonTTPop R s.canton = 0) :
    stationEntry R s = Except.ok (s, stationWeight R s) := by
  unfold stationEntry stationWeight
  by_cases hc : cantonTTPop R s.canton = 0
  · simp [hc]
  · rcases h with hp | h0
    · cases hsp : s.population with
      | none => rw [hsp] at hp; cases hp
      | some p => simp [hc, hsp]
    · exact absurd h0 hc

theorem sum_fiberwise {α : Type} (l : List α) (key : α → String) (f : α → ℚ) :
    (l.map f).sum = ∑ c in (l.map key).toFinset, ((l.filter (fun a => key a == c)).map f).sum := by
  induction l with
  | nil => simp
  | cons a l ih =>
    rw [List.map_cons, List.sum_cons, ih, List.map_cons, List.toFinset_cons]
    have hsplit : ∀ c, ((List.filter (fun x => key x == c) (a :: l)).map f).sum =
        (if key a = c then f a else 0) + ((List.filter (fun x => key x == c) l).map f).sum := by
      intro c
      by_cases h : key a = c
      · rw [List.filter_cons_of_pos (by simpa using h), List.map_cons, List.sum_cons, if_pos h]
      · rw [List.filter_cons_of_neg (by simpa using h), if_neg h, zero_add]
    rw [Finset.sum_congr rfl (fun c _ => hsplit c), Finset.sum_add_distrib]
    have h1 : (∑ c in insert (key a) (l.map key).toFinset, if key a = c then f a else 0) = f a := by
      rw [Finset.sum_ite_eq]
      simp
    rw [h1]
    congr 1
    by_cases hk : key a ∈ (l.map key).toFinset
    · rw [Finset.insert_eq_self.mpr hk]
    · rw [Finset.sum_insert hk]
      have hnil : List.filter (fun x => key x == key a) l = [] := by
        rw [List.filter_eq_nil_iff]
        intro x hx
        simp only [beq_iff_eq]
        intro hxa
        exact hk (List.mem_toFinset.mpr (hxa ▸ List.mem_map_of_mem key hx))
      rw [hnil]
      simp

theorem sum_map_scale (l : List Station) (g : Station → ℚ) (d e : ℚ) :
    (l.map (fun s => g s / d * e)).sum = (l.map g).sum / d * e := by
  induction l with
  | nil => simp
  | cons a l ih => simp [ih, add_div, add_mul]

theorem filterMap_pop_sum (l : List Station) (h : ∀ s ∈ l, s.population.isSome = true) :
    (l.filterMap (·.population)).sum = (l.map (fun s => s.population.getD 0)).sum := by
  induction l with
  | nil => simp
  | cons a l ih =>
    have ha := h a (List.mem_cons_self a l)
    cases hp : a.population with
    | none => rw [hp] at ha; cases ha
    | some p =>
      simp [List.filterMap_cons, hp, ih (fun s hs => h s (List.mem_cons_of_mem a hs))]

theorem cantonPopOf_mem (R : List Station) (c : String) (h : c ∈ R.map (·.canton)) :
    ∃ s, s ∈ R ∧ s.canton = c ∧ cantonPopOf R c = s.canton_pop := by
  rcases List.mem_map.mp h with ⟨s0, hs0, hc⟩
  have hfs : (R.find? (fun s => s.canton == c)).isSome := by
    rw [List.find?_isSome]
    exact ⟨s0, hs0, by simpa using hc⟩
  cases hf : R.find? (fun s => s.canton == c) with
  | none => rw [hf] at hfs; cases hfs
  | some s1 =>
    refine ⟨s1, List.mem_of_find?_eq_some hf, ?_, ?_⟩
    · have hp := List.find?_some hf
      simpa using hp
    · unfold cantonPopOf
      rw [hf]
      rfl

theorem ttChPop_pos (R : List Station) (hne : R ≠ [])
    (hpos : ∀ s ∈ R, 0 < s.canton_pop.getD 0) :
    0 < ttChPop R := by
  unfold ttChPop
  apply List.sum_pos
  · intro x hx
    rcases List.mem_map.mp hx with ⟨c, hc, hxc⟩
    rcases cantonPopOf_mem R c (List.mem_dedup.mp hc) with ⟨s, hs, _, hpop⟩
    rw [← hxc, hpop]
    exact hpos s hs
  · intro hcon
    have h0 := List.map_eq_nil_iff.mp hcon
    unfold cantonList at h0
    exact hne (List.map_eq_nil_iff.mp ((List.dedup_eq_nil _).mp h0))

theorem guard1_of (R : List Station) (hcp : ∀ s ∈ R, s.canton_pop.isSome = true) :
    ((cantonList R).all fun c => (cantonPopOf R c).isSome) = true := by
  rw [List.all_eq_true]
  intro c hc
  rcases cantonPopOf_mem R c (List.mem_dedup.mp hc) with ⟨s, hs, _, hpop⟩
  rw [hpop]
  exact hcp s hs

theorem computeStationWeights_eq (R : List Station)
    (h1 : ((cantonList R).all fun c => (cantonPopOf R c).isSome) = true)
    (h2 : ttChPop R ≠ 0)
    (h3 : ∀ s ∈ R, s.population.isSome = true ∨ cantonTTPop R s.canton = 0) :
    computeStationWeights R = Except.ok (R.map (fun s => (s, stationWeight R s))) := by
  unfold computeStationWeights
  rw [h1, if_neg (by simp), if_neg (by simp [h2])]
  exact mapExcept_congr_ok _ _ R (fun s hs => stationEntry_eq_ok R s (h3 s hs))

theorem sum_toFinset_dedup (l : List String) (f : String → ℚ) :
    ∑ c in l.toFinset, f c = (l.dedup.map f).sum := by
  have h : l.toFinset = l.dedup.toFinset :=
    Finset.ext (fun a => by simp [List.mem_toFinset, List.mem_dedup])
  rw [h, List.sum_toFinset _ (List.nodup_dedup l)]

theorem stationWeight_sum (R : List Station) (hne : R ≠ [])
    (hpos : ∀ s ∈ R, 0 < s.canton_pop.getD 0)
    (hreg : ∀ c ∈ cantonList R,
      (cantonTTPop R c ≠ 0 ∧ ∀ s ∈ R, s.canton = c → s.population.isSome = true) ∨
      (cantonTTPop R c = 0 ∧ (R.filter (fun s => s.canton == c)).length = 1)) :
    (R.map (stationWeight R)).sum = 1 := by
  rw [sum_fiberwise R (·.canton) (stationWeight R)]
  have hfiber : ∀ c ∈ (R.map (·.canton)).toFinset,
      ((R.filter (fun s => s.canton == c)).map (stationWeight R)).sum = cantonWeight R c := by
    intro c hc
    have hcl : c ∈ cantonList R := List.mem_dedup.mpr (List.mem_toFinset.mp hc)
    have hmemfil : ∀ s ∈ R.filter (fun s => s.canton == c), s.canton = c := by
      intro s hs
      have h2 := (List.mem_filter.mp hs).2
      simpa using h2
    rcases hreg c hcl with ⟨hct, hpop⟩ | ⟨hct, hlen⟩
    · have hw : ∀ s ∈ R.filter (fun s => s.canton == c), stationWeight R s =
          ((s.population.getD 0 : ℤ) : ℚ) / ((cantonTTPop R c : ℤ) : ℚ) * cantonWeight R c := by
        intro s hs
        have hc' := hmemfil s hs
        unfold stationWeight
        rw [hc', if_neg hct]
      rw [List.map_congr_left hw, sum_map_scale]
      have hsum : (List.map (fun s => ((s.population.getD 0 : ℤ) : ℚ))
          (R.filter (fun s => s.canton == c))).sum = ((cantonTTPop R c : ℤ) : ℚ) := by
        have hz := filterMap_pop_sum (R.filter (fun s => s.canton == c))
          (fun s hs => hpop s (List.mem_filter.mp hs).1 (hmemfil s hs))
        unfold cantonTTPop
        rw [hz, Int.cast_list_sum, List.map_map]
        rfl
      rw [hsum, div_self (by exact_mod_cast hct), one_mul]
    · rcases List.length_eq_one.mp hlen with ⟨s, hs⟩
      have hsmem : s ∈ R.filter (fun s => s.canton == c) := by
        rw [hs]
        exact List.mem_singleton_self s
      have hc' := hmemfil s hsmem
      rw [hs]
      simp only [List.map_cons, List.map_nil, List.sum_cons, List.sum_nil, add_zero]
      unfold stationWeight
      rw [hc', if_pos hct, one_mul]
  rw [Finset.sum_congr rfl hfiber]
  unfold cantonWeight
  rw [← Finset.sum_div]
  have htt : ∑ c in (R.map (·.canton)).toFinset, (((cantonPopOf R c).getD 0 : ℤ) : ℚ)
      = ((ttChPop R : ℤ) : ℚ) := by
    rw [sum_toFinset_dedup]
    unfold ttChPop cantonList
    rw [Int.cast_list_sum, List.map_map]
    rfl
  rw [htt, div_self (by exact_mod_cast ne_of_gt (ttChPop_pos R hne hpos))]

theorem ttChPop_append (R : List Station) (s : Station) (h : s.canton ∈ R.map (·.canton)) :
    ttChPop (R ++ [s]) = ttChPop R := by
  have hpop : ∀ c ∈ R.map (·.canton), cantonPopOf (R ++ [s]) c = cantonPopOf R c := by
    intro c hc
    rcases List.mem_map.mp hc with ⟨x, hx, hxc⟩
    have hfs : (R.find? (fun t => t.canton == c)).isSome := by
      rw [List.find?_isSome]
      exact ⟨x, hx, by simpa using hxc⟩
    cases hf : R.find? (fun t => t.canton == c) with
    | none => rw [hf] at hfs; cases hfs
    | some y =>
      unfold cantonPopOf
      rw [List.find?_append, hf]
      rfl
  have hcast : ∀ (T : List Station), ((ttChPop T : ℤ) : ℚ) =
      ∑ c in (T.map (·.canton)).toFinset, (((cantonPopOf T c).getD 0 : ℤ) : ℚ) := by
    intro T
    rw [sum_toFinset_dedup]
    unfold ttChPop cantonList
    rw [Int.cast_list_sum, List.map_map]
    rfl
  have hQ : ((ttChPop (R ++ [s]) : ℤ) : ℚ) = ((ttChPop R : ℤ) : ℚ) := by
    rw [hcast, hcast]
    have hset : ((R ++ [s]).map (·.canton)).toFinset = (R.map (·.canton)).toFinset := by
      rw [List.map_append, List.toFinset_append]
      have h1 : (List.map (fun t => t.canton) [s]).toFinset = {s.canton} := by simp
      rw [h1, Finset.union_eq_left.mpr (by simpa using List.mem_toFinset.mpr h)]
    rw [hset]
    exact Finset.sum_congr rfl (fun c hc => by rw [hpop c (List.mem_toFinset.mp hc)])
  exact_mod_cast hQ

theorem sum_map_const {α : Type} (l : List α) (f : α → ℚ) (k : ℚ)
    (h : ∀ x ∈ l, f x = k) : (l.map f).sum = (l.length : ℚ) * k := by
  induction l with
  | nil => simp
  | cons a t ih =>
    rw [List.map_cons, List.sum_cons, h a (List.mem_cons_self a t),
      ih (fun x hx => h x (List.mem_cons_of_mem a hx)), List.length_cons]
    push_cast
    ring

/-! ## Claims about the weight computation -/

/-- C2 (counterexample).  The registry `regUU` is valid in the claim's
sense — non-empty, every station carrying a present, non-zero
parent-region population total — yet the weights `compute_station_weights`
produces for it sum to 2, not to 1.0 within 1e-9. -/
theorem claim_C2_counterexample :
    (regUU ≠ [] ∧ ∀ s ∈ regUU, s.canton_pop = some 100) ∧
    weightSum regUU = some 2 ∧
    ¬ ((2 : ℚ) - 1 ≤ 1 / 1000000000) := by
  refine ⟨by decide, ?_, by norm_num⟩
  norm_num [weightSum, computeStationWeights, cantonList, cantonPopOf, ttChPop,
    cantonWeight, cantonTTPop, stationEntry, mapExcept, regUU, stUA, stUB]

/-- C2 (amended).  For every valid registry in which each region either has
all its stations reporting a local population (with a non-zero regional
total) or consists of exactly one station, the computation succeeds and
its weights sum to exactly 1; moreover a region's parent-population total
enters the national denominator once: appending a further station of an
already-present region leaves `tt_ch_pop` unchanged. -/
theorem claim_C2_amended (R : List Station) (hne : R ≠ [])
    (hcp : ∀ s ∈ R, s.canton_pop.isSome = true)
    (hpos : ∀ s ∈ R, 0 < s.canton_pop.getD 0)
    (hreg : ∀ c ∈ cantonList R,
      (cantonTTPop R c ≠ 0 ∧ ∀ s ∈ R, s.canton = c → s.population.isSome = true) ∨
      (cantonTTPop R c = 0 ∧ (R.filter (fun s => s.canton == c)).length = 1)) :
    (∃ l, computeStationWeights R = Except.ok l ∧ (l.map (·.2)).sum = 1) ∧
    (∀ s : Station, s.canton ∈ R.map (·.canton) → ttChPop (R ++ [s]) = ttChPop R) := by
  constructor
  · have h3 : ∀ s ∈ R, s.population.isSome = true ∨ cantonTTPop R s.canton = 0 := by
      intro s hs
      have hcl : s.canton ∈ cantonList R := List.mem_dedup.mpr (List.mem_map_of_mem _ hs)
      rcases hreg s.canton hcl with ⟨_, hp⟩ | ⟨h0, _⟩
      · exact Or.inl (hp s hs rfl)
      · exact Or.inr h0
    refine ⟨_, computeStationWeights_eq R (guard1_of R hcp)
      (ne_of_gt (ttChPop_pos R hne hpos)) h3, ?_⟩
    rw [List.map_map]
    exact stationWeight_sum R hne hpos hreg
  · intro s hs
    exact ttChPop_append R s hs

/-- C2 (witness): the amended statement applied to the mixed registry. -/
theorem claim_C2_witness :
    (∃ l, computeStationWeights regMixed = Except.ok l ∧ (l.map (·.2)).sum = 1) ∧
    (∀ s : Station, s.canton ∈ regMixed.map (·.canton) →
      ttChPop (regMixed ++ [s]) = ttChPop regMixed) :=
  claim_C2_amended regMixed (by decide) (by decide) (by decide) (by decide)

/-- C3 (counterexample).  In `regUU` the single region `XX` has two
stations and none reports a population; the code assigns each the local
weight 1 (not 1/2), so both final weights equal the full region weight and
their sum is twice the region's weight instead of equal to it. -/
theorem claim_C3_counterexample :
    computeStationWeights regUU = Except.ok [(stUA, 1), (stUB, 1)] ∧
    cantonWeight regUU "XX" = 1 ∧
    ¬ (([(stUA, (1 : ℚ)), (stUB, 1)].map (·.2)).sum = cantonWeight regUU "XX") := by
  refine ⟨?_, ?_, ?_⟩
  · norm_num [computeStationWeights, cantonList, cantonPopOf, ttChPop,
      cantonWeight, cantonTTPop, stationEntry, mapExcept, regUU, stUA, stUB]
  · norm_num [cantonWeight, cantonPopOf, ttChPop, cantonList, regUU, stUA, stUB]
  · have hcw : cantonWeight regUU "XX" = 1 := by
      norm_num [cantonWeight, cantonPopOf, ttChPop, cantonList, regUU, stUA, stUB]
    rw [hcw]
    norm_num

/-- C3 (amended).  Whenever the computation succeeds on a registry, every
station of a region with no reported population receives the full region
weight (local weight 1): those stations' weights are all equal, and they
sum to (number of stations of the region) times the region's weight —
equal to the region's weight only for a singleton region. -/
theorem claim_C3_amended (R : List Station) (l : List (Station × ℚ))
    (hok : computeStationWeights R = Except.ok l) (c : String)
    (hct : cantonTTPop R c = 0) :
    (∀ p ∈ l, p.1.canton = c → p.2 = cantonWeight R c) ∧
    ((l.filter (fun p => p.1.canton == c)).map (·.2)).sum =
      ((l.filter (fun p => p.1.canton == c)).length : ℚ) * cantonWeight R c := by
  have hmem : ∀ p ∈ l, p.1.canton = c → p.2 = cantonWeight R c := by
    intro p hp hpc
    unfold computeStationWeights at hok
    by_cases g1 : ((cantonList R).all fun c => (cantonPopOf R c).isSome) = false
    · rw [if_pos g1] at hok; cases hok
    · rw [if_neg g1] at hok
      by_cases g2 : R.isEmpty = false ∧ ttChPop R = 0
      · rw [if_pos g2] at hok; cases hok
      · rw [if_neg g2] at hok
        rcases mapExcept_mem_ok _ R l hok p hp with ⟨s, _, hentry⟩
        simp only [stationEntry] at hentry
        by_cases hc0 : cantonTTPop R s.canton = 0
        · rw [if_pos hc0] at hentry
          simp only [Except.ok.injEq] at hentry
          rw [← hentry] at hpc ⊢
          simp only at hpc ⊢
          rw [hpc, one_mul]
        · rw [if_neg hc0] at hentry
          cases hsp : s.population with
          | none => rw [hsp] at hentry; cases hentry
          | some q =>
            rw [hsp] at hentry
            simp only [Except.ok.injEq] at hentry
            rw [← hentry] at hpc
            simp only at hpc
            exact absurd (hpc ▸ hct) hc0
  refine ⟨hmem, ?_⟩
  apply sum_map_const
  intro q hq
  exact hmem q (List.mem_filter.mp hq).1 (by simpa using (List.mem_filter.mp hq).2)

/-- C3 (witness): the amended statement applied to the two-station
no-population registry. -/
theorem claim_C3_witness :
    (∀ p ∈ [(stUA, (1 : ℚ)), (stUB, 1)], p.1.canton = "XX" → p.2 = cantonWeight regUU "XX") ∧
    (([(stUA, (1 : ℚ)), (stUB, 1)].filter (fun p => p.1.canton == "XX")).map (·.2)).sum =
      (([(stUA, (1 : ℚ)), (stUB, 1)].filter (fun p => p.1.canton == "XX")).length : ℚ) *
        cantonWeight regUU "XX" :=
  claim_C3_amended regUU [(stUA, 1), (stUB, 1)]
    (by norm_num [computeStationWeights, cantonList, cantonPopOf, ttChPop,
      cantonWeight, cantonTTPop, stationEntry, mapExcept, regUU, stUA, stUB])
    "XX" (by decide)

/-- C9 (counterexample).  On the empty registry — an invalid registry in
the claim's sense — the weight computation does not fail at all: it
returns an empty weight assignment. -/
theorem claim_C9_counterexample :
    computeStationWeights ([] : List Station) = Except.ok [] ∧
    isOkE (computeStationWeights ([] : List Station)) = true := by
  exact ⟨by decide, by decide⟩

theorem stationEntry_error (R : List Station) (s : Station) (e : String)
    (h : stationEntry R s = Except.error e) : e = "KeyError: population" := by
  simp only [stationEntry] at h
  split at h
  · cases h
  · cases hsp : s.population with
    | none =>
      rw [hsp] at h
      cases h
      rfl
    | some p =>
      rw [hsp] at h
      cases h

theorem computeStationWeights_outcomes (R : List Station) :
    (∃ l, computeStationWeights R = Except.ok l) ∨
    computeStationWeights R = Except.error "KeyError: canton_pop" ∨
    computeStationWeights R = Except.error "ZeroDivisionError" ∨
    computeStationWeights R = Except.error "KeyError: population" := by
  unfold computeStationWeights
  split
  · right
    left
    rfl
  · split
    · right
      right
      left
      rfl
    · have hmain : ∀ (l : List Station),
          (∃ ys, mapExcept (stationEntry R) l = Except.ok ys) ∨
          mapExcept (stationEntry R) l = Except.error "KeyError: population" := by
        intro l
        induction l with
        | nil => exact Or.inl ⟨[], rfl⟩
        | cons a t ih =>
          cases hg : stationEntry R a with
          | error e =>
            right
            simp only [mapExcept, hg, stationEntry_error R a e hg]
          | ok y =>
            rcases ih with ⟨ys, hys⟩ | herr
            · exact Or.inl ⟨y :: ys, by simp only [mapExcept, hg, hys]⟩
            · right
              simp only [mapExcept, hg, herr]
      rcases hmain R with ⟨ys, h⟩ | h
      · exact Or.inl ⟨ys, h⟩
      · right
        right
        right
        exact h

/-- C9 (amended).  The weight computation performs no fail-fast
validation and raises no `ConfigurationError`: for every registry the
outcome is either a weight assignment or one of `KeyError` (`canton_pop`),
`ZeroDivisionError`, `KeyError` (`population`) — never a
`ConfigurationError`.  In particular an empty registry yields an empty
result without error; a region with zero parent-population next to a
positive one yields weight-zero stations without error; a missing
parent-population key raises `KeyError`; an all-zero national total raises
`ZeroDivisionError`; and a station without a `population` key in a region
with a nonzero reported total raises `KeyError` as well. -/
theorem claim_C9_amended :
    (∀ R : List Station,
      (∃ l, computeStationWeights R = Except.ok l) ∨
      computeStationWeights R = Except.error "KeyError: canton_pop" ∨
      computeStationWeights R = Except.error "ZeroDivisionError" ∨
      computeStationWeights R = Except.error "KeyError: population") ∧
    computeStationWeights ([] : List Station) = Except.ok [] ∧
    computeStationWeights [stZZ, stPP] = Except.ok
      [(stZZ, 1 * cantonWeight [stZZ, stPP] "AA"),
       (stPP, 1 * cantonWeight [stZZ, stPP] "BB")] ∧
    cantonWeight [stZZ, stPP] "AA" = 0 ∧
    computeStationWeights [stMM] = Except.error "KeyError: canton_pop" ∧
    computeStationWeights [stZZ] = Except.error "ZeroDivisionError" ∧
    computeStationWeights regHalf = Except.error "KeyError: population" := by
  refine ⟨computeStationWeights_outcomes, by decide, ?_, ?_, by decide, by decide, by decide⟩
  · rfl
  · norm_num [cantonWeight, cantonPopOf, ttChPop, cantonList, stZZ, stPP]

/-! ## Claim about `config.set_global_meteo` -/

/-- C10 (confirmed).  `set_global_meteo` raises exactly when its argument
is `==`-equal to neither `True` nor `False`; the integers 1 and 0 are
accepted (since `1 == True` and `0 == False`) and stored unchanged, so the
`global_meteo` field then holds a non-boolean value. -/
theorem claim_C10_set_global_meteo : ∀ (c : PyConfig) (v : PyVal),
    (isOkE (set_global_meteo c v) =
      (pyEq v (PyVal.pybool true) || pyEq v (PyVal.pybool false))) ∧
    set_global_meteo c (PyVal.pyint 1) = Except.ok { c with global_meteo := PyVal.pyint 1 } ∧
    set_global_meteo c (PyVal.pyint 0) = Except.ok { c with global_meteo := PyVal.pyint 0 } ∧
    isPyBool (PyVal.pyint 1) = false ∧
    pyEq (PyVal.pyint 1) (PyVal.pybool true) = true ∧
    isOkE (set_global_meteo c (PyVal.pyint 2)) = false := by
  intro c v
  refine ⟨?_, rfl, rfl, rfl, rfl, rfl⟩
  cases hb : (pyEq v (PyVal.pybool true) || pyEq v (PyVal.pybool false)) <;>
    simp [set_global_meteo, hb, isOkE]

/-! ## Claim about the top-level `load_meteo_file` with the flag disabled -/

/-- C1 (code bug).  For every configuration with the compute-global flag
disabled and every outcome of the downloads, `load_meteo_file` raises:
`meteo["global"] = pd.concat(meteo_global.values(), ...)` runs
unconditionally, and with the flag off `meteo_global` is empty, so
`pd.concat` raises `ValueError("No objects to concatenate")` instead of
returning the per-station merged table. -/
theorem claim_C1_global_concat_raises (cfg : LoadConfig)
    (download : String → String → String → String → DF)
    (h : cfg.global_meteo = false) :
    loadMeteoFile cfg download = Except.error "No objects to concatenate" := by
  have hok : isOkE (computeStationWeights swissRegistry) = true := by decide
  unfold loadMeteoFile
  cases hE : computeStationWeights swissRegistry with
  | error e => rw [hE] at hok; cases hok
  | ok sw =>
    simp only [h]
    rfl

/-- C1 (witness): a concrete disabled configuration hitting the raise. -/
theorem claim_C1_witness :
    loadMeteoFile ⟨"h", "2022-01-01", "2022-12-31", false⟩ (fun _ _ _ _ => emptyDF) =
      Except.error "No objects to concatenate" :=
  claim_C1_global_concat_raises ⟨"h", "2022-01-01", "2022-12-31", false⟩
    (fun _ _ _ _ => emptyDF) rfl

/-! ## Claims about the file selection -/

theorem selectAux_eq (sd ed : String) :
    ∀ (l res : List (String × String)), selectFilesAux sd ed l = Except.ok res →
      res = l.filter (fun kv => keepB sd ed kv.1) := by
  intro l
  induction l with
  | nil =>
    intro res h
    simp only [selectFilesAux] at h
    cases h
    rfl
  | cons kv rest ih =>
    intro res h
    simp only [selectFilesAux] at h
    cases hf : fileInRange sd ed kv.1 with
    | error e => rw [hf] at h; cases h
    | ok b =>
      rw [hf] at h
      cases hr : selectFilesAux sd ed rest with
      | error e => rw [hr] at h; cases h
      | ok l2 =>
        rw [hr] at h
        cases h
        rw [List.filter_cons]
        have hk : keepB sd ed kv.1 = b := by
          unfold keepB
          rw [hf]
        rw [hk, ih l2 hr]

/-- C6 (amended).  Whenever the selection completes without raising, it
keeps, in catalog order, exactly the entries whose key contains the
`_freq_` token and ends in `.csv` (the `relevant_files` filter), contains
`historical_`, and declares an overlapping year range in its final
underscore token; the spec's hourly 2010-2019 / 2020-2025 example holds
for such `historical` filenames.  A `historical` key without a
recognizable year range is, however, not uniformly excluded: one whose
final token does not unpack into two dash-separated parts, or whose range
start is not an integer and therefore `int(start)` raises, or whose start
is in range while the end is not an integer, makes the selection raise
`ValueError`; only when the parsed start already exceeds the query end
year does the short-circuiting `and` exclude the entry without parsing
the end token. -/
theorem claim_C6_amended :
    (∀ (freq sd ed : String) (assets res : List (String × String)),
      selectedFiles freq sd ed assets = Except.ok res →
      res = (relevantFiles freq assets).filter (fun kv => keepB sd ed kv.1)) ∧
    selectedFiles "h" "2022-01-01" "2022-12-31" [aH2010, aH2020, aRecent] =
      Except.ok [aH2020] ∧
    selectedFiles "h" "2022-01-01" "2022-12-31" [aShort] = Except.ok [] ∧
    selectedFiles "h" "2022-01-01" "2022-12-31" [aLate] =
      Except.error "ValueError: invalid literal for int" ∧
    selectedFiles "h" "2022-01-01" "2022-12-31" [aBad] =
      Except.error "ValueError: unpack" := by
  refine ⟨?_, by decide, by decide, by decide, by decide⟩
  intro freq sd ed assets res h
  exact selectAux_eq sd ed _ res h

/-- C6 (witness): the general description applied to the three-entry
hourly catalog. -/
theorem claim_C6_witness :
    [aH2020] = (relevantFiles "h" [aH2010, aH2020, aRecent]).filter
      (fun kv => keepB "2022-01-01" "2022-12-31" kv.1) :=
  claim_C6_amended.1 "h" "2022-01-01" "2022-12-31" [aH2010, aH2020, aRecent]
    [aH2020] (by decide)

/-- C6 (counterexample).  The entry `data_h_2020-2025.csv` contains the
frequency token, ends in `.csv` and declares the in-range year range
2020-2025 for the 2022 query window, yet the selection drops it because it
lacks the `historical_` marker — against the claim's "kept if and only
if" condition. -/
theorem claim_C6_counterexample :
    selectedFiles "h" "2022-01-01" "2022-12-31" [aPlain] = Except.ok [] ∧
    substrIn "_h_" aPlain.1 = true ∧
    endsWithCh aPlain.1 ".csv" = true ∧
    specYearRange aPlain.1 = some (2020, 2025) ∧
    ((2020 ≤ 2022 ∧ 2022 ≤ 2025) = True) := by decide

/-! ## Claims about the per-station concatenation and timestamp parsing -/

/-- C7 (counterexample).  A concatenated table holding one row with
timestamp `01.03.2020 14:00` and one with `2020-03-01T15:00:00` does not
yield two valid timestamps: the whole-column ISO parse fails on the first
row, and the whole-column day-first fallback then fails on the second row,
so `concat_meteo_items` raises. -/
theorem claim_C7_counterexample :
    concatMeteoItems [("f1", Except.ok rawDay1), ("f2", Except.ok rawISO2)] variablesMap =
      Except.error "ValueError: time data does not match format" := by decide

/-- C7 (amended).  Timestamp parsing is column-wise, ISO tried first with a
day-first fallback for the whole column: a concatenation whose rows all use
one of the two formats yields valid, distinct, ordered timestamps, and a
row with a missing timestamp cell is coerced to the sentinel and dropped;
but mixing the two formats in one concatenated table raises (see the
counterexample), since each format must parse every row. -/
theorem claim_C7_amended :
    (concatMeteoItems [("a", Except.ok rawDay1), ("b", Except.ok rawDay2)]
      variablesMap).toOption.map MeteoFrame.tsIndex =
      some [Int.ofNat (encodeTS 2020 3 1 14 0 0), Int.ofNat (encodeTS 2020 3 1 15 0 0)] ∧
    (concatMeteoItems [("a", Except.ok rawISO1), ("b", Except.ok rawISO2)]
      variablesMap).toOption.map MeteoFrame.tsIndex =
      some [Int.ofNat (encodeTS 2020 3 1 14 0 0), Int.ofNat (encodeTS 2020 3 1 15 0 0)] ∧
    Int.ofNat (encodeTS 2020 3 1 14 0 0) < Int.ofNat (encodeTS 2020 3 1 15 0 0) ∧
    (concatMeteoItems [("m", Except.ok rawMissTS)] variablesMap).toOption.map
      MeteoFrame.tsIndex = some [Int.ofNat (encodeTS 2020 3 1 15 0 0)] ∧
    parseISO "01.03.2020 14:00" = none ∧
    parseDayFirst "2020-03-01T15:00:00" = none := by decide

/-- C8 (confirmed).  A file whose fetch fails is skipped: the result equals
the result on the file list without it, so the per-station outcome is the
concatenation of exactly the files that succeeded; and when every file
fails the result is the empty frame, not an exception. -/
theorem claim_C8_skip_failures :
    (∀ (pre post : List (String × Except Unit RawCSV)) (n : String)
        (vars : List (String × String)),
      concatMeteoItems (pre ++ (n, Except.error ()) :: post) vars =
        concatMeteoItems (pre ++ post) vars) ∧
    (∀ (names : List String) (vars : List (String × String)),
      concatMeteoItems (names.map (fun n => (n, (Except.error () : Except Unit RawCSV)))) vars =
        Except.ok ⟨[], [], []⟩) := by
  constructor
  · intro pre post n vars
    unfold concatMeteoItems
    congr 1
    simp [List.filterMap_append, List.filterMap_cons]
  · intro names vars
    unfold concatMeteoItems
    have h : (names.map (fun n => (n, (Except.error () : Except Unit RawCSV)))).filterMap
        (fun f => match f.2 with
          | Except.error _ => none
          | Except.ok raw => processFile vars raw) = [] := by
      induction names with
      | nil => rfl
      | cons a t ih => simp only [List.map_cons, List.filterMap_cons]; exact ih
    rw [h]
    rfl

/-! ## Claims about the global weighted series and the merged index -/

theorem concat_cols (dfs : List DF) (g : DF) (h : pdConcatAxis1 dfs = Except.ok g) :
    g.cols = (dfs.map maskCols).join := by
  cases dfs with
  | nil => cases h
  | cons d ds =>
    simp only [pdConcatAxis1] at h
    split at h
    · cases h
      rfl
    · split at h
      · cases h
        rfl
      · cases h

theorem names_maskScale (w : ℚ) (d : DF) :
    (maskCols (scalarMul w d)).map (·.1) = d.cols.map (·.1) := by
  simp [maskCols, scalarMul, List.map_map, Function.comp]

theorem find?_map_mem {β : Type} (fn : String → β) (v : String) :
    ∀ (l : List String), v ∈ l →
      (l.map (fun n => (n, fn n))).find? (fun c => c.1 == v) = some (v, fn v) := by
  intro l
  induction l with
  | nil => intro h; cases h
  | cons a t ih =>
    intro h
    by_cases hav : a = v
    · subst hav
      rw [List.map_cons, List.find?_cons_of_pos _ (by simp)]
    · have hv : v ∈ t := by
        rcases List.mem_cons.mp h with h1 | h2
        · exact absurd h1.symm hav
        · exact h2
      rw [List.map_cons, List.find?_cons_of_neg _ (by simpa using hav), ih hv]

theorem groupby_lookup (df : DF) (v : String) (hv : v ∈ df.cols.map (·.1)) (t : Int) :
    lookupCol (groupbyLevel0Sum df) v t =
      some ((df.cols.filterMap (fun c => if c.1 == v then c.2 t else none)).sum) := by
  unfold lookupCol groupbyLevel0Sum
  have hv2 : v ∈ List.insertionSort (fun a b => strLe a b = true) (df.cols.map (·.1)).dedup := by
    rw [(List.perm_insertionSort (fun a b => strLe a b = true) _).mem_iff]
    exact List.mem_dedup.mpr hv
  rw [find?_map_mem _ v _ hv2]

theorem maskScale_filterMap (w : ℚ) (d : DF) (v : String) (t : Int) :
    (maskCols (scalarMul w d)).filterMap (fun c => if c.1 == v then c.2 t else none) =
      if t ∈ d.index then
        ((d.cols.filterMap (fun c => if c.1 == v then c.2 t else none)).map (fun x => w * x))
      else [] := by
  unfold maskCols scalarMul
  simp only [List.map_map, List.filterMap_map, Function.comp]
  by_cases ht : t ∈ d.index
  · simp only [ht, if_true]
    rw [List.map_filterMap]
    congr 1
    funext c
    rw [apply_ite (Option.map (fun x => w * x))]
    simp [ht]
  · simp only [ht, if_false]
    rw [List.filterMap_eq_nil_iff]
    intro c hc
    simp [ht]

theorem join_filterMap_sum (pairs : List (ℚ × DF)) (v : String) (t : Int) :
    ((((pairs.map (fun p => scalarMul p.1 p.2)).map maskCols).join).filterMap
      (fun c => if c.1 == v then c.2 t else none)).sum = reportSum pairs v t := by
  induction pairs with
  | nil => simp [reportSum]
  | cons p ps ih =>
    simp only [List.map_cons, List.join_cons, List.filterMap_append, List.sum_append]
    rw [maskScale_filterMap, ih]
    unfold reportSum
    simp only [List.map_cons, List.sum_cons]
    congr 1
    by_cases ht : t ∈ p.2.index
    · simp [ht]
    · simp [ht]

/-- C4 (amended).  Whenever the global concatenation succeeds and the
variable occurs in some station, the global series' value at every
timestamp is the partial weighted sum over exactly the stations reporting
a value there — and where no station reports, that empty sum makes the
value a present `0.0` (see the counterexample), never a missing value. -/
theorem claim_C4_amended (pairs : List (ℚ × DF)) (v : String) (t : Int)
    (hok : isOkE (weightedGlobal pairs) = true)
    (hv : v ∈ (pairs.map (fun p => p.2.cols.map (·.1))).join) :
    globalLookup pairs v t = some (reportSum pairs v t) := by
  unfold globalLookup
  unfold weightedGlobal at hok
  cases hc : pdConcatAxis1 (pairs.map (fun p => scalarMul p.1 p.2)) with
  | error e =>
    rw [hc] at hok
    simp [isOkE] at hok
  | ok g =>
    have hw : weightedGlobal pairs = Except.ok (groupbyLevel0Sum g) := by
      unfold weightedGlobal
      rw [hc]
    simp only [hw]
    have hcols : g.cols = ((pairs.map (fun p => scalarMul p.1 p.2)).map maskCols).join :=
      concat_cols _ g hc
    have hvg : v ∈ g.cols.map (·.1) := by
      have hnames : g.cols.map (·.1) = (pairs.map (fun p => p.2.cols.map (·.1))).join := by
        rw [hcols, List.map_join, List.map_map, List.map_map]
        congr 1
        apply List.map_congr_left
        intro p _
        exact names_maskScale p.1 p.2
      rw [hnames]
      exact hv
    rw [groupby_lookup g v hvg t, hcols, join_filterMap_sum]

/-- C4 (witness): the amended statement at the example pair, where station
B reports `temp` at timestamp 2 with weight 0.4 and value 3. -/
theorem claim_C4_witness :
    globalLookup pairsEx "temp" 2 = some (reportSum pairsEx "temp" 2) ∧
    reportSum pairsEx "temp" 2 = 6 / 5 := by
  refine ⟨claim_C4_amended pairsEx "temp" 2 (by decide) (by decide), ?_⟩
  norm_num [reportSum, pairsEx, dfHumA, dfTempB, List.filterMap_cons]

/-- C4 (counterexample).  At timestamp 1 no station reports `temp` — A has
no `temp` column and B has no row 1 — yet the global value there is the
present value `0.0`, not a missing value as the claim demands. -/
theorem claim_C4_counterexample :
    globalLookup pairsEx "temp" 1 = some 0 ∧
    ¬ globalLookup pairsEx "temp" 1 = none ∧
    (1 : Int) ∉ dfTempB.index ∧
    dfHumA.cols.map (·.1) = ["humidity"] := by decide

theorem sortedUnion_strict (ls : List (List Int)) :
    List.Sorted (fun a b : Int => a < b) (sortedUnion ls) := by
  have hp := List.perm_insertionSort (fun a b : Int => a ≤ b) ls.join.dedup
  have hnd : (sortedUnion ls).Nodup := hp.nodup_iff.mpr (List.nodup_dedup _)
  have hs : List.Sorted (fun a b : Int => a ≤ b) (sortedUnion ls) :=
    List.sorted_insertionSort _ _
  exact (hs.and hnd).imp (fun h => lt_of_le_of_ne h.1 h.2)

theorem sortedUnion_mem (ls : List (List Int)) (t : Int) :
    t ∈ sortedUnion ls ↔ ∃ l ∈ ls, t ∈ l := by
  unfold sortedUnion
  rw [(List.perm_insertionSort _ _).mem_iff, List.mem_dedup, List.mem_join]

/-- C5 (amended).  When at least two of the frames that survive the
empty-frame filter have different row indexes (and each index is
duplicate-free), the horizontally merged table's row index is the strictly
increasing deduplicated union of the station indexes.  The sort, however,
comes only from the pandas outer alignment: nothing sorts within a single
station's series (see the counterexample, where a one-station merge keeps
an unsorted index). -/
theorem claim_C5_amended (meteo : List (String × DF)) (ex : Option (List String))
    (hnd : ∀ d ∈ csFrames meteo (ex.getD []), d.index.Nodup)
    (hdiff : ∃ d1 ∈ csFrames meteo (ex.getD []), ∃ d2 ∈ csFrames meteo (ex.getD []),
      d1.index ≠ d2.index) :
    ∃ G, concatStationsHorizontal meteo ex = Except.ok G ∧
      List.Sorted (fun a b : Int => a < b) G.index ∧
      (∀ t : Int, t ∈ G.index ↔ ∃ d ∈ csFrames meteo (ex.getD []), t ∈ d.index) := by
  rcases hdiff with ⟨d1, hd1, d2, hd2, hne⟩
  simp only [concatStationsHorizontal]
  cases hcs : csFrames meteo (ex.getD []) with
  | nil => rw [hcs] at hd1; cases hd1
  | cons d ds =>
    rw [hcs] at hd1 hd2 hnd
    have hall : (ds.all (fun x => x.index == d.index)) = false := by
      by_contra hcon
      have htrue : (ds.all (fun x => x.index == d.index)) = true := by
        revert hcon
        cases ds.all (fun x => x.index == d.index) <;> simp
      have hT : ∀ x ∈ ds, x.index = d.index := by
        intro x hx
        have hb := List.all_eq_true.mp htrue x hx
        simpa using hb
      have e1 : d1.index = d.index := by
        rcases List.mem_cons.mp hd1 with h | h
        · rw [h]
        · exact hT d1 h
      have e2 : d2.index = d.index := by
        rcases List.mem_cons.mp hd2 with h | h
        · rw [h]
        · exact hT d2 h
      exact hne (e1.trans e2.symm)
    rw [if_neg (by simp)]
    simp only [pdConcatAxis1, hall]
    rw [if_neg (by simp), if_pos hnd]
    refine ⟨_, rfl, sortedUnion_strict _, ?_⟩
    intro t
    rw [sortedUnion_mem]
    constructor
    · rintro ⟨l, hl, htl⟩
      rcases List.mem_map.mp hl with ⟨df, hdf, hdfe⟩
      exact ⟨df, hdf, hdfe ▸ htl⟩
    · rintro ⟨df, hdf, htd⟩
      exact ⟨df.index, List.mem_map_of_mem _ hdf, htd⟩

/-- C5 (witness): two out-of-order station frames merge to the strictly
sorted union index. -/
theorem claim_C5_witness :
    ∃ G, concatStationsHorizontal [("A", dfUnsorted), ("B", dfSingle3)] none = Except.ok G ∧
      List.Sorted (fun a b : Int => a < b) G.index ∧
      (∀ t : Int, t ∈ G.index ↔ ∃ d ∈ csFrames [("A", dfUnsorted), ("B", dfSingle3)]
        ((none : Option (List String)).getD []), t ∈ d.index) :=
  claim_C5_amended [("A", dfUnsorted), ("B", dfSingle3)] none (by decide) (by decide)

/-- C5 (counterexample).  A single station's series built from files that
arrive out of chronological order keeps its unsorted index — no explicit
sort happens per station — and the merged table of that single station
keeps the unsorted index `[2, 1]`, which is not the sorted union of the
inputs and not strictly increasing. -/
theorem claim_C5_counterexample :
    ((concatStationsHorizontal [("ABO", dfUnsorted)] none).toOption.map DF.index) =
      some [2, 1] ∧
    ¬ List.Sorted (fun a b : Int => a < b) [(2 : Int), 1] ∧
    (concatMeteoItems [("f2", Except.ok rawISO2), ("f1", Except.ok rawISO1)]
      variablesMap).toOption.map MeteoFrame.tsIndex =
      some [Int.ofNat (encodeTS 2020 3 1 15 0 0), Int.ofNat (encodeTS 2020 3 1 14 0 0)] ∧
    Int.ofNat (encodeTS 2020 3 1 14 0 0) < Int.ofNat (encodeTS 2020 3 1 15 0 0) := by decide
